import Mathlib

/-!
Shallow embedding of `src/shader.c` from gst-plugins-gles.

The C file talks to two external systems: the GLib/GIO filesystem layer
(`g_file_new_for_path`, `g_file_load_contents`, `g_object_unref`, `g_free`)
and the OpenGL ES 2.0 driver (`glCreateShader`, `glShaderBinary`,
`glShaderSource`, `glCompileShader`, `glAttachShader`,
`glBindAttribLocation`, `glLinkProgram`, `glGetError`, ...).

The driver and filesystem are modelled as:
  * an `Env` record of driver/filesystem responses (extension string, file
    contents, whether object creation succeeds, compile/link status, the
    error code recorded after a binary upload or an attach, info-log
    lengths, and attribute locations for names not explicitly bound); and
  * a `GLState` state record threaded through every call, holding the live
    shader/program objects, the GL error flag (`glGetError` reads it and
    resets it, and like the GL spec says, only the first error is
    recorded), the attribute bindings made by `glBindAttribLocation`, the
    per-shader source stored by `glShaderSource`, compile/link status, and
    a trace of observable calls (file I/O, object creation/destruction,
    uploads, log retrievals, ...), newest event first.

`glGetAttribLocation` follows the GL specification for attributes bound
via `glBindAttribLocation` before a successful link: it returns the bound
index; names with no binding get the driver-chosen `Env.attribLoc` value.
GStreamer debug/warning/error log lines are not part of the model, except
the error reported after each `glAttachShader` (event `Ev.logErr`) and
the driver-side info-log retrievals (`Ev.getShaderLog`,
`Ev.getProgramLog`), which claims refer to.

Machine integers: GL object names and error codes are `Nat` (0 is the
invalid name / `GL_NO_ERROR`), C `gint` return codes are `Int`, file
contents are `List Nat` (bytes).
-/

/-- Constant `DATA_DIR`, the default from `shader.c`. -/
def DATA_DIR : String := "/usr/share/gst-plugins-gles/shaders"

/-- Constant `SHADER_EXT_BINARY` from `shader.c`. -/
def SHADER_EXT_BINARY : String := ".glsh"

/-- Constant `SHADER_EXT_SOURCE` from `shader.c`. -/
def SHADER_EXT_SOURCE : String := ".glsl"

/-- Constant `VERTEX_SHADER_BASENAME` from `shader.c`. -/
def VERTEX_SHADER_BASENAME : String := "vertex"

/-- The vendor capability token checked by `gl_load_binary_shader`. -/
def BINARY_EXTENSION : String := "GL_NV_platform_binary"

def GL_VERTEX_SHADER : Nat := 0x8B31
def GL_FRAGMENT_SHADER : Nat := 0x8B30
def GL_NO_ERROR : Nat := 0

/-- errno constants used by `shader.c` (returned negated). -/
def EINVAL : Int := 22
def ENOMEM : Int := 12

/-- Table `static const gchar* shader_basenames[]` from `shader.c`:
`"deint_linear"` at index `SHADER_DEINT_LINEAR`, `"copy"` at index
`SHADER_COPY`. -/
def shader_basenames : List String := ["deint_linear", ("copy")]

/-- Modelled from the spec: the enum `GstGLESShaderTypes` is declared in
`shader.h`, which is not part of the sources; per the spec it is the
closed set of shader kinds `DeintLinear` and `Copy`, i.e. the C enum
constants `SHADER_DEINT_LINEAR` and `SHADER_COPY`, which in declaration
order take the values 0 and 1. -/
inductive GstGLESShaderTypes where
  | SHADER_DEINT_LINEAR
  | SHADER_COPY
deriving DecidableEq

/-- Numeric value of the C enum constant. -/
def GstGLESShaderTypes.val : GstGLESShaderTypes → Nat
  | .SHADER_DEINT_LINEAR => 0
  | .SHADER_COPY => 1

/-- The fields of `struct GstGLESShader` (from `shader.h`) that
`shader.c` reads or writes. -/
structure GstGLESShader where
  program : Nat
  vertex_shader : Nat
  fragment_shader : Nat
  position_loc : Int
  texcoord_loc : Int
deriving DecidableEq, Repr

/-- Observable calls made to the filesystem layer and the GL driver. -/
inductive Ev where
  | fileNew (path : String)
  | fileRead (path : String)
  | fileUnref
  | bufFree
  | createShader
  | createProgram
  | shaderBinary (shader : Nat) (data : List Nat)
  | shaderSource (shader : Nat) (data : List Nat) (len : Nat)
  | compile (shader : Nat)
  | attach (program shader : Nat)
  | bindAttrib (program : Nat) (index : Nat) (name : String)
  | link (program : Nat)
  | getShaderLog (shader : Nat)
  | getProgramLog (program : Nat)
  | deleteShader (shader : Nat)
  | deleteProgram (program : Nat)
  | useProgram (program : Nat)
  | clearColor
  | logErr (code : Nat)
deriving DecidableEq, Repr

/-- State of the GL driver context (plus the call trace, newest first). -/
structure GLState where
  nextId : Nat
  liveShaders : List Nat
  livePrograms : List Nat
  errorFlag : Nat
  bindings : List (Nat × String × Nat)
  shaderSrc : List (Nat × List Nat)
  compiledShaders : List Nat
  linkedPrograms : List Nat
  trace : List Ev
deriving DecidableEq, Repr

/-- Driver and filesystem behaviour, fixed for one run. -/
structure Env where
  extensions : String
  files : String → Option (List Nat)
  createShaderOk : Bool
  createProgramOk : Bool
  binaryErr : List Nat → Nat
  compileOk : List Nat → Bool
  linkOk : Bool
  shaderLogLen : Nat
  progLogLen : Nat
  attachErr : Nat → Nat
  attribLoc : String → Int

def pushEv (e : Ev) (s : GLState) : GLState := { s with trace := e :: s.trace }

/-- Record a GL error: per the GL spec only the first error since the last
`glGetError` is kept. Recording `GL_NO_ERROR` is a no-op. -/
def setErr (e : Nat) (s : GLState) : GLState :=
  if s.errorFlag = 0 then { s with errorFlag := e } else s

/-- Driver call `glGetError`: returns the recorded error and resets the flag. -/
def glGetError (s : GLState) : Nat × GLState :=
  (s.errorFlag, { s with errorFlag := 0 })

/-- Driver call `glCreateShader`: a fresh non-zero name on success, 0 on failure. -/
def glCreateShader (env : Env) (type : Nat) (s : GLState) : Nat × GLState :=
  if env.createShaderOk then
    let id := s.nextId + 1
    (id, pushEv Ev.createShader
          { s with nextId := id, liveShaders := id :: s.liveShaders })
  else
    (0, pushEv Ev.createShader s)

/-- Driver call `glCreateProgram`: a fresh non-zero name on success, 0 on failure. -/
def glCreateProgram (env : Env) (s : GLState) : Nat × GLState :=
  if env.createProgramOk then
    let id := s.nextId + 1
    (id, pushEv Ev.createProgram
          { s with nextId := id, livePrograms := id :: s.livePrograms })
  else
    (0, pushEv Ev.createProgram s)

def glDeleteShader (n : Nat) (s : GLState) : GLState :=
  pushEv (Ev.deleteShader n)
    { s with liveShaders := s.liveShaders.filter (fun m => decide (m ≠ n)) }

def glDeleteProgram (n : Nat) (s : GLState) : GLState :=
  pushEv (Ev.deleteProgram n)
    { s with livePrograms := s.livePrograms.filter (fun m => decide (m ≠ n)) }

/-- Driver call `glShaderBinary` on one shader: records the upload and the driver's
verdict (`Env.binaryErr` of the blob) in the error flag. -/
def glShaderBinary (env : Env) (sh : Nat) (data : List Nat) (s : GLState) : GLState :=
  setErr (env.binaryErr data) (pushEv (Ev.shaderBinary sh data) s)

/-- Function `strlen` on a byte buffer: the number of bytes before the first NUL. -/
def strlenBytes : List Nat → Nat
  | [] => 0
  | b :: t => if b = 0 then 0 else strlenBytes t + 1

/-- Driver call `glShaderSource` with one length-qualified string: the driver stores
the first `len` bytes of the buffer as the shader's source. -/
def glShaderSource (sh : Nat) (data : List Nat) (len : Nat) (s : GLState) : GLState :=
  pushEv (Ev.shaderSource sh (data.take len) len)
    { s with shaderSrc := (sh, data.take len) :: s.shaderSrc }

def lookupSrc : List (Nat × List Nat) → Nat → Option (List Nat)
  | [], _ => none
  | (n, d) :: t, sh => if n = sh then some d else lookupSrc t sh

/-- Driver call `glCompileShader`: compile status of `sh` becomes the driver's verdict
(`Env.compileOk`) on the stored source. -/
def glCompileShader (env : Env) (sh : Nat) (s : GLState) : GLState :=
  let s := pushEv (Ev.compile sh) s
  match lookupSrc s.shaderSrc sh with
  | some src =>
    if env.compileOk src then { s with compiledShaders := sh :: s.compiledShaders }
    else { s with compiledShaders := s.compiledShaders.filter (fun m => decide (m ≠ sh)) }
  | none => { s with compiledShaders := s.compiledShaders.filter (fun m => decide (m ≠ sh)) }

/-- Driver query `glGetShaderiv(sh, GL_COMPILE_STATUS, ..)`. -/
def getCompileStatus (sh : Nat) (s : GLState) : Nat :=
  if sh ∈ s.compiledShaders then 1 else 0

def glAttachShader (prog sh : Nat) (env : Env) (s : GLState) : GLState :=
  setErr (env.attachErr sh) (pushEv (Ev.attach prog sh) s)

def glBindAttribLocation (prog : Nat) (index : Nat) (name : String) (s : GLState) : GLState :=
  pushEv (Ev.bindAttrib prog index name) { s with bindings := (prog, name, index) :: s.bindings }

/-- Driver call `glLinkProgram`: link status of `prog` becomes the driver's verdict. -/
def glLinkProgram (env : Env) (prog : Nat) (s : GLState) : GLState :=
  let s := pushEv (Ev.link prog) s
  if env.linkOk then { s with linkedPrograms := prog :: s.linkedPrograms }
  else { s with linkedPrograms := s.linkedPrograms.filter (fun m => decide (m ≠ prog)) }

/-- Driver query `glGetProgramiv(prog, GL_LINK_STATUS, ..)`. -/
def getLinkStatus (prog : Nat) (s : GLState) : Nat :=
  if prog ∈ s.linkedPrograms then 1 else 0

def findBinding : List (Nat × String × Nat) → Nat → String → Option Nat
  | [], _, _ => none
  | (p, n, i) :: t, prog, name =>
    if p = prog ∧ n = name then some i else findBinding t prog name

/-- Driver call `glGetAttribLocation`: per the GL spec, a name bound with
`glBindAttribLocation` before the (successful) link resolves to the bound
index; otherwise the driver picks the location (`Env.attribLoc`). -/
def glGetAttribLocation (env : Env) (prog : Nat) (name : String) (s : GLState) : Int :=
  match findBinding s.bindings prog name with
  | some i => Int.ofNat i
  | none => env.attribLoc name

def glUseProgram (prog : Nat) (s : GLState) : GLState := pushEv (Ev.useProgram prog) s

def glClearColor (s : GLState) : GLState := pushEv Ev.clearColor s

/-- Filesystem call `g_file_new_for_path`. -/
def gFileNew (path : String) (s : GLState) : GLState := pushEv (Ev.fileNew path) s

/-- Filesystem call `g_file_load_contents`: returns the file's bytes, or `none` on a read
failure. -/
def gFileLoadContents (env : Env) (path : String) (s : GLState) :
    Option (List Nat) × GLState :=
  (env.files path, pushEv (Ev.fileRead path) s)

/-- Filesystem call `g_object_unref` on the `GFile`. -/
def gFileUnref (s : GLState) : GLState := pushEv Ev.fileUnref s

/-- Memory call `g_free` on the loaded byte buffer (`g_free(NULL)` included). -/
def gBufFree (s : GLState) : GLState := pushEv Ev.bufFree s

/-- Bool test whether `needle` starts `hay` (char lists). -/
def leadsWith : List Char → List Char → Bool
  | [], _ => true
  | _ :: _, [] => false
  | a :: as, b :: bs => a = b && leadsWith as bs

/-- Bool test whether `needle` occurs contiguously in `hay`, as
`g_strstr_len(hay, -1, needle) != NULL` does. -/
def hasSub (needle : List Char) : List Char → Bool
  | [] => leadsWith needle []
  | c :: t => leadsWith needle (c :: t) || hasSub needle t

/-- Function `gl_extension_available` from `shader.c`: substring search of the
token in the driver's `GL_EXTENSIONS` string. -/
def gl_extension_available (env : Env) (extension : String) : Bool :=
  hasSub extension.toList env.extensions.toList

/-- The `g_strdup_printf("%s/%s%s", DATA_DIR, basename, ext)` paths. -/
def shaderPath (basename ext : String) : String :=
  DATA_DIR ++ "/" ++ basename ++ ext

/-- Function `gl_load_binary_shader` from `shader.c`. -/
def gl_load_binary_shader (env : Env) (filename : String) (type : Nat) (s : GLState) :
    Nat × GLState :=
  if gl_extension_available env BINARY_EXTENSION = false then
    (0, s)
  else
    let s := gFileNew filename s
    let (shader, s) := glCreateShader env type s
    if shader = 0 then
      (0, gFileUnref (gBufFree s))
    else
      match gFileLoadContents env filename s with
      | (none, s) =>
        let s := glDeleteShader shader s
        (0, gFileUnref (gBufFree s))
      | (some binary, s) =>
        let s := glShaderBinary env shader binary s
        let (err, s) := glGetError s
        if err ≠ GL_NO_ERROR then
          let s := glDeleteShader shader s
          (0, gFileUnref (gBufFree s))
        else
          (shader, gFileUnref (gBufFree s))

/-- Function `gl_load_source_shader` from `shader.c`. Note `src_len = strlen (shader_src)`
before the `glShaderSource` call. -/
def gl_load_source_shader (env : Env) (shader_filename : String) (type : Nat) (s : GLState) :
    Nat × GLState :=
  let (shader, s) := glCreateShader env type s
  if shader = 0 then
    (0, s)
  else
    let s := gFileNew shader_filename s
    match gFileLoadContents env shader_filename s with
    | (none, s) =>
      let s := gFileUnref s
      let s := glDeleteShader shader s
      (0, s)
    | (some shader_src, s) =>
      let src_len := strlenBytes shader_src
      let s := glShaderSource shader shader_src src_len s
      let s := gFileUnref (gBufFree s)
      let s := glCompileShader env shader s
      if getCompileStatus shader s = 0 then
        let s := if env.shaderLogLen > 1 then pushEv (Ev.getShaderLog shader) s else s
        let s := glDeleteShader shader s
        (0, s)
      else
        (shader, s)

/-- Function `gl_load_shader` from `shader.c`: binary variant first, source variant
as fallback. -/
def gl_load_shader (env : Env) (basename : String) (type : Nat) (s : GLState) :
    Nat × GLState :=
  let filename := shaderPath basename SHADER_EXT_BINARY
  let (shader, s) := gl_load_binary_shader env filename type s
  if shader = 0 then
    let filename := shaderPath basename SHADER_EXT_SOURCE
    gl_load_source_shader env filename type s
  else
    (shader, s)

/-- Function `gl_load_shaders` from `shader.c`. The C indexes
`shader_basenames[process_type]` with no bounds check; the embedding
returns `none` exactly when that read is out of bounds (undefined
behaviour in the C). -/
def gl_load_shaders (env : Env) (shader : GstGLESShader) (process_type : Nat) (s : GLState) :
    Option (Int × GstGLESShader × GLState) :=
  let (vs, s) := gl_load_shader env VERTEX_SHADER_BASENAME GL_VERTEX_SHADER s
  let shader := { shader with vertex_shader := vs }
  if vs = 0 then
    some (-EINVAL, shader, s)
  else
    match shader_basenames.get? process_type with
    | none => none
    | some bn =>
      let (fsh, s) := gl_load_shader env bn GL_FRAGMENT_SHADER s
      let shader := { shader with fragment_shader := fsh }
      if fsh = 0 then
        some (-EINVAL, shader, s)
      else
        some (0, shader, s)

/-- One attach step of `gl_init_shader`: `glAttachShader`, then
`glGetError`, logging (but not acting on) any error found. This pattern
appears verbatim twice in `gl_init_shader`, once per stage. -/
def attachCheck (env : Env) (prog sh : Nat) (s : GLState) : GLState :=
  let s := glAttachShader prog sh env s
  let (err, s) := glGetError s
  if err ≠ GL_NO_ERROR then pushEv (Ev.logErr err) s else s

/-- The part of `gl_init_shader` after the stages are loaded: attach both
stages (logging, but not acting on, a driver error after each attach),
bind `vPosition` to index 0, link, and either report/clean up the link
failure or activate the program and resolve the attribute locations. -/
def gl_init_shader_post (env : Env) (shader : GstGLESShader) (s : GLState) :
    Int × GstGLESShader × GLState :=
  let s := attachCheck env shader.program shader.vertex_shader s
  let s := attachCheck env shader.program shader.fragment_shader s
  let s := glBindAttribLocation shader.program 0 ("vPosition") s
  let s := glLinkProgram env shader.program s
  if getLinkStatus shader.program s = 0 then
    let s := if env.progLogLen > 1 then pushEv (Ev.getProgramLog shader.program) s else s
    let s := glDeleteProgram shader.program s
    (-EINVAL, shader, s)
  else
    let s := glUseProgram shader.program s
    let shader := { shader with position_loc := glGetAttribLocation env shader.program ("vPosition") s }
    let shader := { shader with texcoord_loc := glGetAttribLocation env shader.program ("aTexcoord") s }
    let s := glClearColor s
    (0, shader, s)

/-- Function `gl_init_shader` from `shader.c`. It is `none` only when `gl_load_shaders`
hits the out-of-bounds table read. -/
def gl_init_shader (env : Env) (shader : GstGLESShader) (process_type : Nat) (s : GLState) :
    Option (Int × GstGLESShader × GLState) :=
  let (prog, s) := glCreateProgram env s
  let shader := { shader with program := prog }
  if prog = 0 then
    some (-ENOMEM, shader, s)
  else
    match gl_load_shaders env shader process_type s with
    | none => none
    | some (ret, shader, s) =>
      if ret < 0 then
        some (ret, shader, s)
      else
        some (gl_init_shader_post env shader s)

/-- Function `gl_delete_shader` from `shader.c`: releases vertex stage, fragment
stage, program, in that order, zeroing each field. -/
def gl_delete_shader (shader : GstGLESShader) (s : GLState) : GstGLESShader × GLState :=
  let s := glDeleteShader shader.vertex_shader s
  let shader := { shader with vertex_shader := 0 }
  let s := glDeleteShader shader.fragment_shader s
  let shader := { shader with fragment_shader := 0 }
  let s := glDeleteProgram shader.program s
  let shader := { shader with program := 0 }
  (shader, s)

/-- Count occurrences of an event in a trace. -/
def countEv (e : Ev) : List Ev → Nat
  | [] => 0
  | x :: t => (if x = e then 1 else 0) + countEv e t

/-- The empty initial driver state. -/
def s0 : GLState :=
  { nextId := 0, liveShaders := [], livePrograms := [], errorFlag := 0,
    bindings := [], shaderSrc := [], compiledShaders := [], linkedPrograms := [],
    trace := [] }

/-- A shader structure with all fields cleared. -/
def sh0 : GstGLESShader :=
  { program := 0, vertex_shader := 0, fragment_shader := 0,
    position_loc := 0, texcoord_loc := 0 }

/-- A driver without the binary-shader extension and an empty filesystem. -/
def envNoBin : Env :=
  { extensions := "", files := fun _ => none,
    createShaderOk := true, createProgramOk := true,
    binaryErr := fun _ => 0, compileOk := fun _ => true, linkOk := true,
    shaderLogLen := 0, progLogLen := 0,
    attachErr := fun _ => 0, attribLoc := fun _ => -1 }

/-- A driver without the binary extension whose filesystem holds source
variants of the `vertex` and `copy` shaders, everything succeeding. -/
def envOk : Env :=
  { envNoBin with
    files := fun p =>
      if p = shaderPath VERTEX_SHADER_BASENAME SHADER_EXT_SOURCE then some [1, 2, 3]
      else if p = shaderPath ("copy") SHADER_EXT_SOURCE then some [4, 5] else none }

/-- Like `envOk` but the link step fails with a 5-byte info log. -/
def envLinkFail : Env :=
  { envOk with linkOk := false, progLogLen := 5 }

/-- A driver advertising the binary extension, every file readable,
binary uploads accepted. -/
def envBin : Env :=
  { envNoBin with
    extensions := "foo GL_NV_platform_binary bar"
    files := fun _ => some [9, 8] }

/-- A source file with an embedded NUL byte: contents `[65, 0, 66]`. -/
def env6 : Env :=
  { envNoBin with
    files := fun p => if p = ("f.glsl") then some [65, 0, 66] else none }

/-- Like `envOk` but every `glAttachShader` leaves driver error 5. -/
def envC9 : Env :=
  { envOk with attachErr := fun _ => 5 }

lemma gl_load_binary_shader_absent (env : Env) (f : String) (t : Nat) (s : GLState)
    (h : gl_extension_available env BINARY_EXTENSION = false) :
    gl_load_binary_shader env f t s = (0, s) := by
  unfold gl_load_binary_shader
  rw [h]
  simp

lemma strlenBytes_le (bs : List Nat) : strlenBytes bs ≤ bs.length := by
  induction bs with
  | nil => simp [strlenBytes]
  | cons b t ih =>
    simp only [strlenBytes, List.length_cons]
    split
    · omega
    · omega

/-- C7: if the driver's extension string does not contain the vendor
binary-shader token, `gl_load_binary_shader` returns 0 with the state
untouched: no file object, no file I/O, no shader object, and (being a
total function of the inputs) no fault. -/
theorem c7_capability_absent (env : Env) (f : String) (t : Nat) (s : GLState)
    (h : gl_extension_available env BINARY_EXTENSION = false) :
    gl_load_binary_shader env f t s = (0, s) ∧
    (gl_load_binary_shader env f t s).2.trace = s.trace := by
  refine ⟨gl_load_binary_shader_absent env f t s h, ?_⟩
  rw [gl_load_binary_shader_absent env f t s h]

theorem c7_witness :
    gl_load_binary_shader envNoBin ("p") GL_VERTEX_SHADER s0 = (0, s0) ∧
    (gl_load_binary_shader envNoBin ("p") GL_VERTEX_SHADER s0).2.trace = s0.trace :=
  c7_capability_absent envNoBin ("p") GL_VERTEX_SHADER s0 (by decide)

/-- C5 (as written) is false: `gl_delete_shader` releases the vertex
stage before the fragment stage. On a structure with vertex = 1,
fragment = 2, program = 3 the trace (newest call first) shows the
program, then the fragment stage, then the vertex stage — not the
fragment-vertex-program call order the claim asserts, which would have
produced the second list. -/
theorem c5_counterexample :
    (gl_delete_shader { sh0 with vertex_shader := 1, fragment_shader := 2, program := 3 } s0).2.trace
      = [Ev.deleteProgram 3, Ev.deleteShader 2, Ev.deleteShader 1] ∧
    ¬ ((gl_delete_shader { sh0 with vertex_shader := 1, fragment_shader := 2, program := 3 } s0).2.trace
      = [Ev.deleteProgram 3, Ev.deleteShader 1, Ev.deleteShader 2]) := by
  decide

/-- C5 amended: `gl_delete_shader` unconditionally releases the vertex
stage handle, the fragment stage handle, and the program object, in that
order, and clears all three fields of the structure to 0. -/
theorem c5_amended (shader : GstGLESShader) (s : GLState) :
    (gl_delete_shader shader s).1.program = 0 ∧
    (gl_delete_shader shader s).1.vertex_shader = 0 ∧
    (gl_delete_shader shader s).1.fragment_shader = 0 ∧
    (gl_delete_shader shader s).2.trace =
      Ev.deleteProgram shader.program :: Ev.deleteShader shader.fragment_shader ::
        Ev.deleteShader shader.vertex_shader :: s.trace :=
  ⟨rfl, rfl, rfl, rfl⟩

/-- C6 (as written) is false: with a source file whose contents are the
3 bytes `[65, 0, 66]` (an embedded NUL after the first byte), the source
compiler submits the source length-qualified with length `strlen` = 1,
not the full byte length 3 of the file as read: the embedded NUL
truncates what is submitted (`src_len = strlen (shader_src)` in
`gl_load_source_shader`). -/
theorem c6_counterexample :
    env6.files ("f.glsl") = some [65, 0, 66] ∧
    (gl_load_source_shader env6 ("f.glsl") GL_FRAGMENT_SHADER s0).2.trace =
      [Ev.compile 1, Ev.fileUnref, Ev.bufFree, Ev.shaderSource 1 [65] 1,
       Ev.fileRead ("f.glsl"), Ev.fileNew ("f.glsl"), Ev.createShader] ∧
    ([65, 0, 66] : List Nat).length = 3 ∧ (1 : Nat) ≠ 3 := by
  decide

/-- C6 amended: after successfully reading the shader source file, the
source compiler submits the source length-qualified, but with the
submitted length equal to `strlen` of the buffer — the number of bytes
before the first NUL — so an embedded NUL byte truncates what is
submitted; the submitted length never exceeds the file's byte length. -/
theorem c6_amended (env : Env) (f : String) (t : Nat) (s : GLState) (bytes : List Nat)
    (hc : env.createShaderOk = true) (hf : env.files f = some bytes) :
    Ev.shaderSource (s.nextId + 1) (bytes.take (strlenBytes bytes)) (strlenBytes bytes)
      ∈ (gl_load_source_shader env f t s).2.trace ∧
    strlenBytes bytes ≤ bytes.length := by
  refine ⟨?_, strlenBytes_le bytes⟩
  unfold gl_load_source_shader
  simp only [glCreateShader, hc, if_true, gFileLoadContents, gFileNew, pushEv]
  simp only [hf]
  simp only [glShaderSource, gBufFree, gFileUnref, glCompileShader, pushEv, lookupSrc]
  split
  case isTrue h => exact absurd h (Nat.succ_ne_zero s.nextId)
  case isFalse h =>
    cases hok : env.compileOk (List.take (strlenBytes bytes) bytes) <;>
      simp [hok, glDeleteShader, pushEv, getCompileStatus] <;>
      split_ifs <;>
      simp

theorem c6_amended_witness :
    Ev.shaderSource (s0.nextId + 1) (([65, 0, 66] : List Nat).take (strlenBytes [65, 0, 66]))
        (strlenBytes [65, 0, 66])
      ∈ (gl_load_source_shader env6 ("f.glsl") GL_FRAGMENT_SHADER s0).2.trace ∧
    strlenBytes [65, 0, 66] ≤ ([65, 0, 66] : List Nat).length :=
  c6_amended env6 ("f.glsl") GL_FRAGMENT_SHADER s0 [65, 0, 66] (by decide) (by decide)

/-- C10: `gl_load_shaders` indexes the two-entry `shader_basenames` table
with `process_type` and performs no bounds check; the lookup succeeds
exactly for the two enumerated shader kinds (values 0 and 1), and under
that precondition the out-of-bounds (`none`) branch of the embedded
lookup is unreachable, so `gl_load_shaders` always produces a defined
result. -/
theorem c10_basename_lookup :
    (∀ t : GstGLESShaderTypes, (shader_basenames.get? t.val).isSome = true) ∧
    (∀ pt : Nat, (shader_basenames.get? pt).isSome = true ↔ pt < 2) ∧
    (∀ (env : Env) (sh : GstGLESShader) (s : GLState) (pt : Nat), pt < 2 →
      (gl_load_shaders env sh pt s).isSome = true) := by
  have hget : ∀ pt : Nat, (shader_basenames.get? pt).isSome = true ↔ pt < 2 := by
    intro pt
    match pt with
    | 0 => simp [shader_basenames]
    | 1 => simp [shader_basenames]
    | n + 2 => simp [shader_basenames, List.get?]
  refine ⟨?_, hget, ?_⟩
  · intro t
    cases t <;> decide
  · intro env sh s pt hpt
    obtain ⟨bn, hbn⟩ := Option.isSome_iff_exists.mp ((hget pt).mpr hpt)
    unfold gl_load_shaders
    rcases hv : gl_load_shader env VERTEX_SHADER_BASENAME GL_VERTEX_SHADER s with ⟨vs, s1⟩
    simp only [hv]
    by_cases hvz : vs = 0
    · simp [hvz]
    · rw [if_neg hvz, hbn]
      split
      · simp_all
      · split <;> simp

theorem c10_witness :
    (gl_load_shaders envNoBin sh0 1 s0).isSome = true :=
  c10_basename_lookup.2.2 envNoBin sh0 s0 1 (by decide)

@[simp] lemma pushEv_trace (e : Ev) (s : GLState) : (pushEv e s).trace = e :: s.trace := rfl

@[simp] lemma pushEv_errorFlag (e : Ev) (s : GLState) : (pushEv e s).errorFlag = s.errorFlag := rfl

@[simp] lemma pushEv_liveShaders (e : Ev) (s : GLState) : (pushEv e s).liveShaders = s.liveShaders := rfl

@[simp] lemma pushEv_livePrograms (e : Ev) (s : GLState) : (pushEv e s).livePrograms = s.livePrograms := rfl

@[simp] lemma pushEv_bindings (e : Ev) (s : GLState) : (pushEv e s).bindings = s.bindings := rfl

@[simp] lemma pushEv_nextId (e : Ev) (s : GLState) : (pushEv e s).nextId = s.nextId := rfl

@[simp] lemma setErr_trace (e : Nat) (s : GLState) : (setErr e s).trace = s.trace := by
  unfold setErr; split <;> rfl

@[simp] lemma setErr_liveShaders (e : Nat) (s : GLState) : (setErr e s).liveShaders = s.liveShaders := by
  unfold setErr; split <;> rfl

@[simp] lemma setErr_livePrograms (e : Nat) (s : GLState) : (setErr e s).livePrograms = s.livePrograms := by
  unfold setErr; split <;> rfl

@[simp] lemma setErr_bindings (e : Nat) (s : GLState) : (setErr e s).bindings = s.bindings := by
  unfold setErr; split <;> rfl

lemma setErr_errorFlag_of_zero (e : Nat) (s : GLState) (h : s.errorFlag = 0) :
    (setErr e s).errorFlag = e := by
  unfold setErr; rw [h]; simp

lemma gl_load_binary_shader_reads (env : Env) (f : String) (t : Nat) (s : GLState) (p : String)
    (h : Ev.fileRead p ∈ (gl_load_binary_shader env f t s).2.trace) :
    Ev.fileRead p ∈ s.trace ∨ p = f := by
  unfold gl_load_binary_shader at h
  split at h
  · exact Or.inl h
  · cases hcs : env.createShaderOk <;>
    cases hfl : env.files f <;>
    simp only [glCreateShader, hcs, gFileNew, gFileUnref, gBufFree, gFileLoadContents, hfl,
      glShaderBinary, glGetError, glDeleteShader, setErr_trace, pushEv_trace,
      if_true, if_false, Bool.false_eq_true] at h <;>
    (try split_ifs at h) <;>
    (try simp_all [List.mem_cons]) <;>
    (try tauto)

lemma srcPath_ne_binPath (basename : String) :
    shaderPath basename SHADER_EXT_SOURCE ≠ shaderPath basename SHADER_EXT_BINARY := by
  intro h
  have h2 := congrArg String.data h
  simp only [shaderPath, String.data_append] at h2
  exact absurd (List.append_cancel_left h2) (by decide)

/-- C1: `gl_load_shader` first builds the binary-variant path
`<DATA_DIR>/<basename>.glsh` and attempts the binary loader; if that
yields a non-zero handle it is returned and no source file is ever read
(every file read in the run is of the binary path, which differs from
the source path); otherwise the source-variant path
`<DATA_DIR>/<basename>.glsl` is built from the same basename and the
source compiler's result — possibly failure — is returned on the state
the binary attempt left behind; in particular, when the driver does not
advertise binary-shader support the binary attempt yields no handle,
touches nothing, and source compilation is always attempted. -/
theorem c1_load_shader (env : Env) (s : GLState) (basename : String) (type : Nat) :
    ((gl_load_binary_shader env (shaderPath basename SHADER_EXT_BINARY) type s).1 ≠ 0 →
      gl_load_shader env basename type s =
        gl_load_binary_shader env (shaderPath basename SHADER_EXT_BINARY) type s ∧
      (∀ p, Ev.fileRead p ∈ (gl_load_shader env basename type s).2.trace →
        Ev.fileRead p ∈ s.trace ∨ p = shaderPath basename SHADER_EXT_BINARY)) ∧
    ((gl_load_binary_shader env (shaderPath basename SHADER_EXT_BINARY) type s).1 = 0 →
      gl_load_shader env basename type s =
        gl_load_source_shader env (shaderPath basename SHADER_EXT_SOURCE) type
          (gl_load_binary_shader env (shaderPath basename SHADER_EXT_BINARY) type s).2) ∧
    (gl_extension_available env BINARY_EXTENSION = false →
      gl_load_shader env basename type s =
        gl_load_source_shader env (shaderPath basename SHADER_EXT_SOURCE) type s) ∧
    shaderPath basename SHADER_EXT_SOURCE ≠ shaderPath basename SHADER_EXT_BINARY := by
  refine ⟨?_, ?_, ?_, srcPath_ne_binPath basename⟩
  · intro hb
    have he : gl_load_shader env basename type s =
        gl_load_binary_shader env (shaderPath basename SHADER_EXT_BINARY) type s := by
      unfold gl_load_shader
      rcases hv : gl_load_binary_shader env (shaderPath basename SHADER_EXT_BINARY) type s
        with ⟨b, s1⟩
      rw [hv] at hb
      simp only [hv]
      rw [if_neg hb]
    refine ⟨he, ?_⟩
    intro p hp
    rw [he] at hp
    exact gl_load_binary_shader_reads env (shaderPath basename SHADER_EXT_BINARY) type s p hp
  · intro hb
    unfold gl_load_shader
    rcases hv : gl_load_binary_shader env (shaderPath basename SHADER_EXT_BINARY) type s
      with ⟨b, s1⟩
    rw [hv] at hb
    simp only [hv]
    rw [if_pos hb]
  · intro hx
    unfold gl_load_shader
    simp only [gl_load_binary_shader_absent env (shaderPath basename SHADER_EXT_BINARY) type s hx]
    simp

theorem c1_witness :
    gl_load_shader envNoBin ("copy") GL_FRAGMENT_SHADER s0 =
      gl_load_source_shader envNoBin (shaderPath ("copy") SHADER_EXT_SOURCE) GL_FRAGMENT_SHADER s0 :=
  (c1_load_shader envNoBin s0 ("copy") GL_FRAGMENT_SHADER).2.2.1 (by decide)

/-- C8: with the binary capability present, `gl_load_binary_shader`
returns a non-zero handle exactly when shader-object creation, the file
read, and the binary submission (no driver error recorded afterwards)
all succeed; whenever it returns 0 no shader object created by the call
remains live; and in every case exactly one buffer free and one file
unref are performed before returning. -/
theorem c8_binary_result (env : Env) (f : String) (t : Nat) (s : GLState)
    (hav : gl_extension_available env BINARY_EXTENSION = true)
    (herr : s.errorFlag = 0) :
    ((gl_load_binary_shader env f t s).1 ≠ 0 ↔
      (env.createShaderOk = true ∧
        ∃ b, env.files f = some b ∧ env.binaryErr b = GL_NO_ERROR)) ∧
    ((gl_load_binary_shader env f t s).1 = 0 →
      ∀ n, n ∈ (gl_load_binary_shader env f t s).2.liveShaders → n ∈ s.liveShaders) ∧
    countEv Ev.bufFree (gl_load_binary_shader env f t s).2.trace =
      countEv Ev.bufFree s.trace + 1 ∧
    countEv Ev.fileUnref (gl_load_binary_shader env f t s).2.trace =
      countEv Ev.fileUnref s.trace + 1 := by
  have hne : ¬ (gl_extension_available env BINARY_EXTENSION = false) := by simp [hav]
  unfold gl_load_binary_shader
  rw [if_neg hne]
  cases hcs : env.createShaderOk
  case false =>
    simp [glCreateShader, hcs, gFileNew, gFileUnref, gBufFree, countEv]
    omega
  case true =>
    cases hfl : env.files f
    case none =>
      simp [glCreateShader, hcs, gFileNew, gFileLoadContents, hfl, gFileUnref, gBufFree,
        glDeleteShader, countEv, List.mem_filter]
      exact ⟨fun n hn _ => hn, by omega, by omega⟩
    case some b =>
      simp only [glCreateShader, hcs, if_true, gFileNew, gFileLoadContents, hfl, glShaderBinary,
        glGetError]
      rw [if_neg (Nat.succ_ne_zero (pushEv (Ev.fileNew f) s).nextId)]
      rw [setErr_errorFlag_of_zero _ _ (by simp [herr])]
      by_cases hbe : env.binaryErr b = 0
      · rw [if_neg (by simp [hbe, GL_NO_ERROR])]
        simp [gFileUnref, gBufFree, countEv, hfl, hbe, GL_NO_ERROR]
        omega
      · rw [if_pos (by simp [GL_NO_ERROR]; exact hbe)]
        simp [glDeleteShader, gFileUnref, gBufFree, countEv, hfl, hbe, List.mem_filter,
          GL_NO_ERROR]
        exact ⟨fun n hn _ => hn, by omega, by omega⟩

theorem c8_witness :
    ((gl_load_binary_shader envBin ("b.glsh") GL_VERTEX_SHADER s0).1 ≠ 0 ↔
      (envBin.createShaderOk = true ∧
        ∃ b, envBin.files ("b.glsh") = some b ∧ envBin.binaryErr b = GL_NO_ERROR)) ∧
    ((gl_load_binary_shader envBin ("b.glsh") GL_VERTEX_SHADER s0).1 = 0 →
      ∀ n, n ∈ (gl_load_binary_shader envBin ("b.glsh") GL_VERTEX_SHADER s0).2.liveShaders →
        n ∈ s0.liveShaders) ∧
    countEv Ev.bufFree (gl_load_binary_shader envBin ("b.glsh") GL_VERTEX_SHADER s0).2.trace =
      countEv Ev.bufFree s0.trace + 1 ∧
    countEv Ev.fileUnref (gl_load_binary_shader envBin ("b.glsh") GL_VERTEX_SHADER s0).2.trace =
      countEv Ev.fileUnref s0.trace + 1 :=
  c8_binary_result envBin ("b.glsh") GL_VERTEX_SHADER s0 (by decide) (by decide)

@[simp] lemma glBindAttribLocation_bindings (p i : Nat) (name : String) (s : GLState) :
    (glBindAttribLocation p i name s).bindings = (p, name, i) :: s.bindings := rfl

@[simp] lemma glBindAttribLocation_trace (p i : Nat) (name : String) (s : GLState) :
    (glBindAttribLocation p i name s).trace = Ev.bindAttrib p i name :: s.trace := rfl

@[simp] lemma glLinkProgram_bindings (env : Env) (p : Nat) (s : GLState) :
    (glLinkProgram env p s).bindings = s.bindings := by
  unfold glLinkProgram; split <;> rfl

@[simp] lemma glLinkProgram_trace (env : Env) (p : Nat) (s : GLState) :
    (glLinkProgram env p s).trace = Ev.link p :: s.trace := by
  unfold glLinkProgram; split <;> rfl

@[simp] lemma glLinkProgram_liveShaders (env : Env) (p : Nat) (s : GLState) :
    (glLinkProgram env p s).liveShaders = s.liveShaders := by
  unfold glLinkProgram; split <;> rfl

@[simp] lemma glLinkProgram_livePrograms (env : Env) (p : Nat) (s : GLState) :
    (glLinkProgram env p s).livePrograms = s.livePrograms := by
  unfold glLinkProgram; split <;> rfl

lemma linkStatus_glLinkProgram (env : Env) (p : Nat) (s : GLState) :
    getLinkStatus p (glLinkProgram env p s) = if env.linkOk then 1 else 0 := by
  unfold getLinkStatus glLinkProgram
  cases h : env.linkOk <;> simp [List.mem_filter]

lemma gl_init_shader_post_fields (env : Env) (sh : GstGLESShader) (s : GLState) :
    (gl_init_shader_post env sh s).2.1.program = sh.program ∧
    (gl_init_shader_post env sh s).2.1.vertex_shader = sh.vertex_shader ∧
    (gl_init_shader_post env sh s).2.1.fragment_shader = sh.fragment_shader := by
  unfold gl_init_shader_post
  simp only [glAttachShader, glGetError]
  split_ifs <;> simp

lemma gl_init_shader_post_ret (env : Env) (sh : GstGLESShader) (s : GLState) :
    (gl_init_shader_post env sh s).1 = 0 ∨ (gl_init_shader_post env sh s).1 = -EINVAL := by
  unfold gl_init_shader_post
  simp only [glAttachShader, glGetError]
  split_ifs <;> simp

lemma gl_init_shader_post_position (env : Env) (sh : GstGLESShader) (s : GLState)
    (h : (gl_init_shader_post env sh s).1 = 0) :
    (gl_init_shader_post env sh s).2.1.position_loc = 0 := by
  unfold gl_init_shader_post at h ⊢
  simp only [glAttachShader, glGetError] at h ⊢
  split_ifs at h ⊢ <;>
    simp_all [EINVAL, glGetAttribLocation, glUseProgram, findBinding]

lemma gl_init_shader_post_bind (env : Env) (sh : GstGLESShader) (s : GLState) :
    Ev.bindAttrib sh.program 0 ("vPosition") ∈ (gl_init_shader_post env sh s).2.2.trace := by
  unfold gl_init_shader_post
  simp only [glAttachShader, glGetError]
  split_ifs <;> simp [glUseProgram, glClearColor, glDeleteProgram, pushEv]

lemma gl_load_shaders_spec (env : Env) (sh : GstGLESShader) (pt : Nat) (s : GLState)
    (r : Int × GstGLESShader × GLState) (h : gl_load_shaders env sh pt s = some r) :
    r.2.1.program = sh.program ∧ (r.1 = 0 ∨ r.1 = -EINVAL) ∧
    (r.1 = 0 → r.2.1.vertex_shader ≠ 0 ∧ r.2.1.fragment_shader ≠ 0) := by
  unfold gl_load_shaders at h
  rcases hv : gl_load_shader env VERTEX_SHADER_BASENAME GL_VERTEX_SHADER s with ⟨vs, s1⟩
  simp only [hv] at h
  by_cases hvz : vs = 0
  · rw [if_pos hvz] at h
    simp only [Option.some.injEq] at h
    subst h
    simp [EINVAL]
  · rw [if_neg hvz] at h
    rcases hbn : shader_basenames.get? pt with _ | bn
    · rw [hbn] at h; cases h
    · rw [hbn] at h
      rcases hf2 : gl_load_shader env bn GL_FRAGMENT_SHADER s1 with ⟨fs2, s2⟩
      simp only [hf2] at h
      by_cases hfz : fs2 = 0
      · rw [if_pos hfz] at h
        simp only [Option.some.injEq] at h
        subst h
        simp [EINVAL]
      · rw [if_neg hfz] at h
        simp only [Option.some.injEq] at h
        subst h
        simp [hvz, hfz]

@[simp] lemma attachCheck_errorFlag (env : Env) (p n : Nat) (s : GLState) :
    (attachCheck env p n s).errorFlag = 0 := by
  unfold attachCheck
  simp only [glAttachShader, glGetError]
  split_ifs <;> simp

@[simp] lemma attachCheck_bindings (env : Env) (p n : Nat) (s : GLState) :
    (attachCheck env p n s).bindings = s.bindings := by
  unfold attachCheck
  simp only [glAttachShader, glGetError]
  split_ifs <;> simp

@[simp] lemma attachCheck_liveShaders (env : Env) (p n : Nat) (s : GLState) :
    (attachCheck env p n s).liveShaders = s.liveShaders := by
  unfold attachCheck
  simp only [glAttachShader, glGetError]
  split_ifs <;> simp

@[simp] lemma attachCheck_livePrograms (env : Env) (p n : Nat) (s : GLState) :
    (attachCheck env p n s).livePrograms = s.livePrograms := by
  unfold attachCheck
  simp only [glAttachShader, glGetError]
  split_ifs <;> simp

lemma attachCheck_mem_of (env : Env) (p n : Nat) (s : GLState) (x : Ev) (h : x ∈ s.trace) :
    x ∈ (attachCheck env p n s).trace := by
  unfold attachCheck
  simp only [glAttachShader, glGetError]
  split_ifs <;> simp [h]

lemma attachCheck_mem_inv (env : Env) (p n : Nat) (s : GLState) (x : Ev)
    (h : x ∈ (attachCheck env p n s).trace) :
    x ∈ s.trace ∨ x = Ev.attach p n ∨ ∃ c, x = Ev.logErr c := by
  unfold attachCheck at h
  simp only [glAttachShader, glGetError] at h
  split_ifs at h <;> simp_all [List.mem_cons] <;> tauto

lemma attachCheck_logs (env : Env) (p n : Nat) (s : GLState) (herr : s.errorFlag = 0)
    (hne : env.attachErr n ≠ 0) :
    Ev.logErr (env.attachErr n) ∈ (attachCheck env p n s).trace := by
  unfold attachCheck
  simp only [glAttachShader, glGetError]
  rw [setErr_errorFlag_of_zero _ _ (by simp [herr])]
  rw [if_pos (by simpa [GL_NO_ERROR] using hne)]
  simp

lemma attachCheck_mem_deleteShader (env : Env) (p n : Nat) (s : GLState) (m : Nat)
    (h : Ev.deleteShader m ∈ (attachCheck env p n s).trace) :
    Ev.deleteShader m ∈ s.trace := by
  rcases attachCheck_mem_inv env p n s _ h with h2 | h2 | ⟨c, h2⟩ <;> simp_all

lemma attachCheck_mem_getProgramLog (env : Env) (p n : Nat) (s : GLState) (q : Nat) :
    Ev.getProgramLog q ∈ (attachCheck env p n s).trace ↔
      Ev.getProgramLog q ∈ s.trace := by
  constructor
  · intro h
    rcases attachCheck_mem_inv env p n s _ h with h2 | h2 | ⟨c, h2⟩ <;> simp_all
  · exact attachCheck_mem_of env p n s _

/-- C2 (as written) is false in its failure half: with a driver that can
create program objects but an empty filesystem (so the vertex stage
fails to load), `gl_init_shader` returns `-EINVAL` yet the program
object it created (name 1) is still recorded in the caller's structure
and still live — it is never destroyed on the stage-load-failure path,
so a program object is leaked to the caller. -/
theorem c2_counterexample :
    (gl_init_shader envNoBin sh0 1 s0).isSome = true ∧
    ((gl_init_shader envNoBin sh0 1 s0).getD (0, sh0, s0)).1 = -EINVAL ∧
    ((gl_init_shader envNoBin sh0 1 s0).getD (0, sh0, s0)).2.1.program = 1 ∧
    1 ∈ ((gl_init_shader envNoBin sh0 1 s0).getD (0, sh0, s0)).2.2.livePrograms ∧
    Ev.deleteProgram 1 ∉ ((gl_init_shader envNoBin sh0 1 s0).getD (0, sh0, s0)).2.2.trace := by
  decide

lemma glCreateProgram_bindings (env : Env) (s : GLState) :
    (glCreateProgram env s).2.bindings = s.bindings := by
  unfold glCreateProgram
  split <;> rfl

lemma gl_load_binary_shader_bindings (env : Env) (f : String) (t : Nat) (s : GLState) :
    (gl_load_binary_shader env f t s).2.bindings = s.bindings := by
  unfold gl_load_binary_shader
  split
  · rfl
  · cases hcs : env.createShaderOk <;>
    cases hfl : env.files f <;>
    simp only [glCreateShader, hcs, gFileNew, gFileUnref, gBufFree, gFileLoadContents, hfl,
      glShaderBinary, glGetError, glDeleteShader, if_true, if_false, Bool.false_eq_true] <;>
    (try split_ifs) <;>
    simp

lemma gl_load_source_shader_bindings (env : Env) (f : String) (t : Nat) (s : GLState) :
    (gl_load_source_shader env f t s).2.bindings = s.bindings := by
  unfold gl_load_source_shader
  cases hcs : env.createShaderOk <;>
  cases hfl : env.files f <;>
  simp only [glCreateShader, hcs, gFileNew, gFileUnref, gBufFree, gFileLoadContents, hfl,
    glShaderSource, glCompileShader, glDeleteShader, getCompileStatus, lookupSrc,
    if_true, if_false, Bool.false_eq_true] <;>
  (try split_ifs) <;>
  simp

lemma gl_load_shader_bindings (env : Env) (bn : String) (t : Nat) (s : GLState) :
    (gl_load_shader env bn t s).2.bindings = s.bindings := by
  unfold gl_load_shader
  rcases hb2 : gl_load_binary_shader env (shaderPath bn SHADER_EXT_BINARY) t s with ⟨b, s1⟩
  have hb3 : s1.bindings = s.bindings := by
    have := gl_load_binary_shader_bindings env (shaderPath bn SHADER_EXT_BINARY) t s
    rw [hb2] at this
    exact this
  simp only [hb2]
  by_cases hz : b = 0
  · rw [if_pos hz, gl_load_source_shader_bindings]
    exact hb3
  · rw [if_neg hz]
    exact hb3

lemma gl_load_shaders_bindings (env : Env) (sh : GstGLESShader) (pt : Nat) (s : GLState)
    (r : Int × GstGLESShader × GLState) (h : gl_load_shaders env sh pt s = some r) :
    r.2.2.bindings = s.bindings := by
  unfold gl_load_shaders at h
  rcases hv : gl_load_shader env VERTEX_SHADER_BASENAME GL_VERTEX_SHADER s with ⟨vs, s1⟩
  simp only [hv] at h
  have hbs1 : s1.bindings = s.bindings := by
    have := gl_load_shader_bindings env VERTEX_SHADER_BASENAME GL_VERTEX_SHADER s
    rw [hv] at this
    exact this
  by_cases hvz : vs = 0
  · rw [if_pos hvz] at h
    simp only [Option.some.injEq] at h
    subst h
    exact hbs1
  · rw [if_neg hvz] at h
    rcases hbn : shader_basenames.get? pt with _ | bn
    · rw [hbn] at h; cases h
    · rw [hbn] at h
      rcases hf2 : gl_load_shader env bn GL_FRAGMENT_SHADER s1 with ⟨fs2, s2⟩
      simp only [hf2] at h
      have hbs2 : s2.bindings = s1.bindings := by
        have := gl_load_shader_bindings env bn GL_FRAGMENT_SHADER s1
        rw [hf2] at this
        exact this
      by_cases hfz : fs2 = 0
      · rw [if_pos hfz] at h
        simp only [Option.some.injEq] at h
        subst h
        exact hbs2.trans hbs1
      · rw [if_neg hfz] at h
        simp only [Option.some.injEq] at h
        subst h
        exact hbs2.trans hbs1

lemma gl_init_shader_post_texcoord (env : Env) (sh : GstGLESShader) (s : GLState)
    (h : (gl_init_shader_post env sh s).1 = 0) :
    (gl_init_shader_post env sh s).2.1.texcoord_loc =
      glGetAttribLocation env sh.program ("aTexcoord") s := by
  have hne : ("vPosition" : String) ≠ "aTexcoord" := by decide
  cases hlk : env.linkOk
  case false =>
    exfalso
    simp only [gl_init_shader_post] at h
    rw [linkStatus_glLinkProgram, hlk] at h
    simp only [Bool.false_eq_true, if_false, if_pos rfl] at h
    have h0' : -EINVAL = (0 : Int) := h
    exact absurd h0' (by decide)
  case true =>
    simp only [gl_init_shader_post]
    rw [linkStatus_glLinkProgram, hlk]
    simp [glGetAttribLocation, glUseProgram, findBinding, hne]

/-- C2 amended: for every shader kind, `gl_init_shader` either returns
success (0) with a fully linked program — the program and both stage
identifiers in the structure are non-zero and both attribute locations
are resolved: `position_loc` is at least 0, and `texcoord_loc` is
exactly what the driver resolves by name for `aTexcoord` on the linked
program (the explicit `vPosition` binding does not interfere with it) —
or it returns a negative error code; however, on the stage-load-failure
path the created program object is left in the caller's structure
undestroyed (see the counterexample), so failure does not imply that no
program object reaches the caller. -/
theorem c2_amended (env : Env) (sh : GstGLESShader) (pt : Nat) (s : GLState)
    (r : Int × GstGLESShader × GLState) (h : gl_init_shader env sh pt s = some r) :
    (r.1 = 0 → r.2.1.program ≠ 0 ∧ r.2.1.vertex_shader ≠ 0 ∧ r.2.1.fragment_shader ≠ 0 ∧
      0 ≤ r.2.1.position_loc ∧
      r.2.1.texcoord_loc = glGetAttribLocation env r.2.1.program ("aTexcoord") s) ∧
    (r.1 ≠ 0 → r.1 < 0) := by
  unfold gl_init_shader at h
  rcases hp : glCreateProgram env s with ⟨prog, s1⟩
  simp only [hp] at h
  by_cases hpz : prog = 0
  · rw [if_pos hpz] at h
    simp only [Option.some.injEq] at h
    subst h
    constructor
    · intro h0
      have h0' : -ENOMEM = (0 : Int) := h0
      exact absurd h0' (by decide)
    · intro _
      show -ENOMEM < 0
      decide
  · rw [if_neg hpz] at h
    rcases hls : gl_load_shaders env { sh with program := prog } pt s1 with _ | q
    · rw [hls] at h; cases h
    · obtain ⟨ret, sh2, s2⟩ := q
      simp only [hls] at h
      have hspec := gl_load_shaders_spec env { sh with program := prog } pt s1 (ret, sh2, s2) hls
      by_cases hrl : ret < 0
      · rw [if_pos hrl] at h
        simp only [Option.some.injEq] at h
        subst h
        constructor
        · intro h0
          exfalso
          have h0' : ret = 0 := h0
          omega
        · intro _
          exact hrl
      · rw [if_neg hrl] at h
        simp only [Option.some.injEq] at h
        subst h
        have hret0 : ret = 0 := by
          rcases hspec.2.1 with h0 | hE
          · exact h0
          · exfalso
            apply hrl
            have hE' : ret = -EINVAL := hE
            rw [hE']
            decide
        have hf := gl_init_shader_post_fields env sh2 s2
        constructor
        · intro h0
          have hbs1 : s1.bindings = s.bindings := by
            have := glCreateProgram_bindings env s
            rw [hp] at this
            exact this
          have hb2 : s2.bindings = s.bindings :=
            (gl_load_shaders_bindings env { sh with program := prog } pt s1
              (ret, sh2, s2) hls).trans hbs1
          refine ⟨?_, ?_, ?_, ?_, ?_⟩
          · rw [hf.1]
            have : sh2.program = prog := hspec.1
            rw [this]; exact hpz
          · rw [hf.2.1]; exact ((hspec.2.2 hret0).1)
          · rw [hf.2.2]; exact ((hspec.2.2 hret0).2)
          · exact le_of_eq (gl_init_shader_post_position env sh2 s2 h0).symm
          · rw [gl_init_shader_post_texcoord env sh2 s2 h0, hf.1]
            simp [glGetAttribLocation, hb2]
        · intro hne
          rcases gl_init_shader_post_ret env sh2 s2 with h0 | hE
          · exact absurd h0 hne
          · rw [hE]; decide

theorem c2_witness :
    ((gl_init_shader envOk sh0 1 s0).getD (0, sh0, s0)).2.1.program ≠ 0 ∧
    ((gl_init_shader envOk sh0 1 s0).getD (0, sh0, s0)).2.1.vertex_shader ≠ 0 ∧
    ((gl_init_shader envOk sh0 1 s0).getD (0, sh0, s0)).2.1.fragment_shader ≠ 0 ∧
    0 ≤ ((gl_init_shader envOk sh0 1 s0).getD (0, sh0, s0)).2.1.position_loc ∧
    ((gl_init_shader envOk sh0 1 s0).getD (0, sh0, s0)).2.1.texcoord_loc =
      glGetAttribLocation envOk
        ((gl_init_shader envOk sh0 1 s0).getD (0, sh0, s0)).2.1.program ("aTexcoord") s0 :=
  (c2_amended envOk sh0 1 s0 ((gl_init_shader envOk sh0 1 s0).getD (0, sh0, s0))
    (by decide)).1 (by decide)

/-- C3: `gl_init_shader` explicitly binds attribute index 0 to
`vPosition` before linking (the `bindAttrib` call is in the trace of
every successful run), and whenever it returns success — which requires
the link to have succeeded — the position attribute location stored in
the structure equals 0, regardless of the shader source: the binding
pins the slot. -/
theorem c3_position (env : Env) (sh : GstGLESShader) (pt : Nat) (s : GLState)
    (r : Int × GstGLESShader × GLState) (h : gl_init_shader env sh pt s = some r)
    (h0 : r.1 = 0) :
    r.2.1.position_loc = 0 ∧
    Ev.bindAttrib r.2.1.program 0 ("vPosition") ∈ r.2.2.trace := by
  unfold gl_init_shader at h
  rcases hp : glCreateProgram env s with ⟨prog, s1⟩
  simp only [hp] at h
  by_cases hpz : prog = 0
  · rw [if_pos hpz] at h
    simp only [Option.some.injEq] at h
    subst h
    have h0' : -ENOMEM = (0 : Int) := h0
    exact absurd h0' (by decide)
  · rw [if_neg hpz] at h
    rcases hls : gl_load_shaders env { sh with program := prog } pt s1 with _ | q
    · rw [hls] at h; cases h
    · obtain ⟨ret, sh2, s2⟩ := q
      simp only [hls] at h
      by_cases hrl : ret < 0
      · rw [if_pos hrl] at h
        simp only [Option.some.injEq] at h
        subst h
        have h0' : ret = 0 := h0
        omega
      · rw [if_neg hrl] at h
        simp only [Option.some.injEq] at h
        subst h
        have hf := gl_init_shader_post_fields env sh2 s2
        refine ⟨gl_init_shader_post_position env sh2 s2 h0, ?_⟩
        rw [hf.1]
        exact gl_init_shader_post_bind env sh2 s2

theorem c3_witness :
    ((gl_init_shader envOk sh0 1 s0).getD (0, sh0, s0)).2.1.position_loc = 0 ∧
    Ev.bindAttrib ((gl_init_shader envOk sh0 1 s0).getD (0, sh0, s0)).2.1.program 0 ("vPosition") ∈
      ((gl_init_shader envOk sh0 1 s0).getD (0, sh0, s0)).2.2.trace :=
  c3_position envOk sh0 1 s0 ((gl_init_shader envOk sh0 1 s0).getD (0, sh0, s0))
    (by decide) (by decide)

@[simp] lemma glBindAttribLocation_liveShaders (p i : Nat) (name : String) (s : GLState) :
    (glBindAttribLocation p i name s).liveShaders = s.liveShaders := rfl

@[simp] lemma glBindAttribLocation_livePrograms (p i : Nat) (name : String) (s : GLState) :
    (glBindAttribLocation p i name s).livePrograms = s.livePrograms := rfl

@[simp] lemma glDeleteProgram_liveShaders (n : Nat) (s : GLState) :
    (glDeleteProgram n s).liveShaders = s.liveShaders := rfl

lemma linkFail_trace (env : Env) (sh : GstGLESShader) (s : GLState)
    (hl : env.linkOk = false) :
    (gl_init_shader_post env sh s).2.2.trace =
      Ev.deleteProgram sh.program ::
        ((if 1 < env.progLogLen then [Ev.getProgramLog sh.program] else []) ++
          Ev.link sh.program :: Ev.bindAttrib sh.program 0 ("vPosition") ::
            (attachCheck env sh.program sh.fragment_shader
              (attachCheck env sh.program sh.vertex_shader s)).trace) := by
  simp only [gl_init_shader_post]
  rw [linkStatus_glLinkProgram, hl]
  simp only [Bool.false_eq_true, if_false, if_pos rfl]
  split_ifs <;> simp [glDeleteProgram, pushEv]

/-- C4: on link failure the link phase of `gl_init_shader` retrieves the
link diagnostic log exactly when its length exceeds 1, destroys the
program object (it is deleted and no longer live), and returns
`-EINVAL`; the structure — including the two stage handles — is
returned unchanged, no shader stage is deleted on this path, and the
set of live shader objects is untouched. -/
theorem c4_link_failure (env : Env) (sh : GstGLESShader) (s : GLState)
    (hl : env.linkOk = false) :
    (gl_init_shader_post env sh s).1 = -EINVAL ∧
    (gl_init_shader_post env sh s).2.1 = sh ∧
    Ev.deleteProgram sh.program ∈ (gl_init_shader_post env sh s).2.2.trace ∧
    sh.program ∉ (gl_init_shader_post env sh s).2.2.livePrograms ∧
    (gl_init_shader_post env sh s).2.2.liveShaders = s.liveShaders ∧
    (∀ n, Ev.deleteShader n ∈ (gl_init_shader_post env sh s).2.2.trace →
      Ev.deleteShader n ∈ s.trace) ∧
    (Ev.getProgramLog sh.program ∈ (gl_init_shader_post env sh s).2.2.trace ↔
      (1 < env.progLogLen ∨ Ev.getProgramLog sh.program ∈ s.trace)) := by
  have hshape := linkFail_trace env sh s hl
  refine ⟨?_, ?_, ?_, ?_, ?_, ?_, ?_⟩
  · simp only [gl_init_shader_post]
    rw [linkStatus_glLinkProgram, hl]
    simp
  · simp only [gl_init_shader_post]
    rw [linkStatus_glLinkProgram, hl]
    simp
  · rw [hshape]
    simp
  · simp only [gl_init_shader_post]
    rw [linkStatus_glLinkProgram, hl]
    simp only [Bool.false_eq_true, if_false, if_pos rfl]
    split_ifs <;> simp [glDeleteProgram, pushEv, List.mem_filter]
  · simp only [gl_init_shader_post]
    rw [linkStatus_glLinkProgram, hl]
    simp only [Bool.false_eq_true, if_false, if_pos rfl]
    split_ifs <;> simp [glDeleteProgram, pushEv]
  · intro n hn
    rw [hshape] at hn
    split_ifs at hn <;> simp at hn <;>
      exact attachCheck_mem_deleteShader _ _ _ _ _
        (attachCheck_mem_deleteShader _ _ _ _ _ hn)
  · rw [hshape]
    split_ifs with hlen <;>
      simp [attachCheck_mem_getProgramLog, hlen]

theorem c4_witness :
    (gl_init_shader_post envLinkFail
        { program := 1, vertex_shader := 2, fragment_shader := 3,
          position_loc := 0, texcoord_loc := 0 } s0).1 = -EINVAL ∧
    (gl_init_shader_post envLinkFail
        { program := 1, vertex_shader := 2, fragment_shader := 3,
          position_loc := 0, texcoord_loc := 0 } s0).2.1 =
      { program := 1, vertex_shader := 2, fragment_shader := 3,
        position_loc := 0, texcoord_loc := 0 } ∧
    Ev.deleteProgram 1 ∈
      (gl_init_shader_post envLinkFail
        { program := 1, vertex_shader := 2, fragment_shader := 3,
          position_loc := 0, texcoord_loc := 0 } s0).2.2.trace ∧
    1 ∉
      (gl_init_shader_post envLinkFail
        { program := 1, vertex_shader := 2, fragment_shader := 3,
          position_loc := 0, texcoord_loc := 0 } s0).2.2.livePrograms ∧
    (gl_init_shader_post envLinkFail
        { program := 1, vertex_shader := 2, fragment_shader := 3,
          position_loc := 0, texcoord_loc := 0 } s0).2.2.liveShaders = s0.liveShaders ∧
    (∀ n, Ev.deleteShader n ∈
        (gl_init_shader_post envLinkFail
          { program := 1, vertex_shader := 2, fragment_shader := 3,
            position_loc := 0, texcoord_loc := 0 } s0).2.2.trace →
      Ev.deleteShader n ∈ s0.trace) ∧
    (Ev.getProgramLog 1 ∈
        (gl_init_shader_post envLinkFail
          { program := 1, vertex_shader := 2, fragment_shader := 3,
            position_loc := 0, texcoord_loc := 0 } s0).2.2.trace ↔
      (1 < envLinkFail.progLogLen ∨ Ev.getProgramLog 1 ∈ s0.trace)) :=
  c4_link_failure envLinkFail
    { program := 1, vertex_shader := 2, fragment_shader := 3,
      position_loc := 0, texcoord_loc := 0 } s0 (by decide)

lemma gl_init_shader_post_mem (env : Env) (sh : GstGLESShader) (s : GLState) (x : Ev)
    (h : x ∈ (glLinkProgram env sh.program (glBindAttribLocation sh.program 0 ("vPosition")
      (attachCheck env sh.program sh.fragment_shader
        (attachCheck env sh.program sh.vertex_shader s)))).trace) :
    x ∈ (gl_init_shader_post env sh s).2.2.trace := by
  simp only [glLinkProgram_trace, glBindAttribLocation_trace, List.mem_cons] at h
  simp only [gl_init_shader_post]
  split_ifs <;> simp [glDeleteProgram, glUseProgram, glClearColor, pushEv] <;> tauto

/-- C9: after both stages are loaded, each attach step of
`gl_init_shader` checks the driver error state and logs a non-zero
attach error, but does not abort: whatever the attach errors are, the
run always proceeds to bind the position attribute and to link the
program. -/
theorem c9_attach_nonfatal (env : Env) (sh : GstGLESShader) (s : GLState)
    (herr : s.errorFlag = 0) :
    Ev.bindAttrib sh.program 0 ("vPosition") ∈ (gl_init_shader_post env sh s).2.2.trace ∧
    Ev.link sh.program ∈ (gl_init_shader_post env sh s).2.2.trace ∧
    (env.attachErr sh.vertex_shader ≠ 0 →
      Ev.logErr (env.attachErr sh.vertex_shader) ∈ (gl_init_shader_post env sh s).2.2.trace) ∧
    (env.attachErr sh.fragment_shader ≠ 0 →
      Ev.logErr (env.attachErr sh.fragment_shader) ∈ (gl_init_shader_post env sh s).2.2.trace) := by
  refine ⟨gl_init_shader_post_bind env sh s, ?_, ?_, ?_⟩
  · apply gl_init_shader_post_mem
    simp
  · intro hne
    apply gl_init_shader_post_mem
    simp only [glLinkProgram_trace, glBindAttribLocation_trace, List.mem_cons]
    right; right
    exact attachCheck_mem_of _ _ _ _ _
      (attachCheck_logs env sh.program sh.vertex_shader s herr hne)
  · intro hne
    apply gl_init_shader_post_mem
    simp only [glLinkProgram_trace, glBindAttribLocation_trace, List.mem_cons]
    right; right
    exact attachCheck_logs env sh.program sh.fragment_shader _
      (attachCheck_errorFlag _ _ _ _) hne

theorem c9_witness :
    Ev.bindAttrib 1 0 ("vPosition") ∈
      (gl_init_shader_post envC9
        { program := 1, vertex_shader := 2, fragment_shader := 3,
          position_loc := 0, texcoord_loc := 0 } s0).2.2.trace ∧
    Ev.link 1 ∈
      (gl_init_shader_post envC9
        { program := 1, vertex_shader := 2, fragment_shader := 3,
          position_loc := 0, texcoord_loc := 0 } s0).2.2.trace ∧
    (envC9.attachErr 2 ≠ 0 →
      Ev.logErr (envC9.attachErr 2) ∈
        (gl_init_shader_post envC9
          { program := 1, vertex_shader := 2, fragment_shader := 3,
            position_loc := 0, texcoord_loc := 0 } s0).2.2.trace) ∧
    (envC9.attachErr 3 ≠ 0 →
      Ev.logErr (envC9.attachErr 3) ∈
        (gl_init_shader_post envC9
          { program := 1, vertex_shader := 2, fragment_shader := 3,
            position_loc := 0, texcoord_loc := 0 } s0).2.2.trace) :=
  c9_attach_nonfatal envC9
    { program := 1, vertex_shader := 2, fragment_shader := 3,
      position_loc := 0, texcoord_loc := 0 } s0 (by decide)
